import Mathlib

/-!
Verification development for the whatsapp-web-messenger backend.

The TypeScript sources are shallowly embedded here.  JavaScript strings are
modelled as Lean `String` (a wrapper around `List Char`), and the JS string
methods used by the source (`replace(/\D/g,"")`, `trim`, `toLowerCase`,
`startsWith`, `substring`) are given explicit list-based models.  The mutable
service state (the static `processedMsgIds` set, the `user_whatsapp` table,
the `users` table) is threaded explicitly, and the externally visible side
effects of one handler invocation (socket broadcast, SQL INSERT, WhatsApp
reply) are returned as an ordered action trace.
-/

namespace WaMessenger

/-- Model of `str.replace(/\D/g, "")`: keep only the decimal digits. -/
def digitsOnly (s : String) : String := ⟨s.data.filter Char.isDigit⟩

/-- Model of JS `String.prototype.startsWith`. -/
def jsStartsWith (s p : String) : Bool := decide (s.data.take p.data.length = p.data)

/-- Model of JS `String.prototype.substring(n)` (all source call sites use
ASCII strings, where JS code units and characters coincide). -/
def jsSubstringFrom (s : String) (n : Nat) : String := ⟨s.data.drop n⟩

/-- Model of JS `String.prototype.substring(a, b)`. -/
def jsSubstring (s : String) (a b : Nat) : String := ⟨(s.data.take b).drop a⟩

/-- A character removed by JS `String.prototype.trim` (ASCII fragment). -/
def isJsSpace (c : Char) : Bool :=
  c == ' ' || c == '\t' || c == '\n' || c == '\x0d' || c == '\x0b' || c == '\x0c'

/-- Model of JS `String.prototype.trim`. -/
def jsTrim (s : String) : String :=
  ⟨((s.data.dropWhile isJsSpace).reverse.dropWhile isJsSpace).reverse⟩

/-- Model of JS `String.prototype.toLowerCase` (ASCII). -/
def jsToLower (s : String) : String := ⟨s.data.map Char.toLower⟩

/-- `extractCountryCodeAndPhone` from the service (src/unnamed/part_002,
lines 148-191), translated branch by branch. -/
def extractCountryCodeAndPhone (fullPhone : String) : String × String :=
  let digits := digitsOnly fullPhone
  -- India: 91 + 10 digits
  if jsStartsWith digits "91" && digits.length == 12 then
    ("91", jsSubstringFrom digits 2)
  -- US/Canada: 1 + 10 digits
  else if jsStartsWith digits "1" && digits.length == 11 then
    ("1", jsSubstringFrom digits 1)
  -- UK: 44 + 10 digits
  else if jsStartsWith digits "44" && digits.length == 12 then
    ("44", jsSubstringFrom digits 2)
  -- China: 86 + 11 digits
  else if jsStartsWith digits "86" && digits.length == 13 then
    ("86", jsSubstringFrom digits 2)
  -- Default: assume phone number is 10 digits, rest is country code
  else if digits.length > 10 then
    (jsSubstring digits 0 (digits.length - 10),
     jsSubstringFrom digits (digits.length - 10))
  else
    ("", digits)

/-- The phone normalisation performed by `sendMessage` (src/unnamed/part_002,
lines 456-457, and src/backend/src/whatsapp.service.ts, lines 180-181):
strip non-digits, and if exactly 10 digits remain, prepend "91". -/
def sendMessagePhone (dest : String) : String :=
  let phone := digitsOnly dest
  if phone.length == 10 then "91" ++ phone else phone

/-- The JID built by `sendMessage`. -/
def sendMessageJid (dest : String) : String := sendMessagePhone dest ++ "@c.us"

/-- Outcome of the media-ingestion attempt for an event that carries media
(the body of the `if (msg.hasMedia)` try block): the `downloadMedia` call can
fail, the `fs.writeFileSync` call can fail after the name was derived, or the
whole block can succeed. -/
inductive MediaOutcome
  | downloadError
  | writeError (mimetype : String)
  | saved (mimetype : String)
deriving DecidableEq, Repr

/-- A raw transport event as seen by the `message` / `message_create`
handlers.  `author` and `to_` use `""` for JS `undefined` (the source only
compares them or tests them for truthiness); `now` stands for the clock value
`Date.now()` at processing time; `password` is the draw `generatePassword()`
would return (a 4-letter uppercase string in the source). -/
structure MsgEvent where
  id : String
  fromMe : Bool
  from_ : String
  author : String
  to_ : String
  body : String
  hasMedia : Bool
  media : MediaOutcome
  now : Nat
  password : String
deriving DecidableEq, Repr

/-- A row of the `user_whatsapp` table: src/unnamed/part_000 creates it with
a primary key on the serial `whatsID` (the row's position in the list
model), and the follow-up migration in src/README.md adds the unique index
`user_whatsapp_msg_id_key` on `msg_id`. -/
structure WaRow where
  msg_id : String
  in_out : String
  sender : Option String
  receiver : Option String
  message : Option String
  attachment_name : Option String
  attachment_path : Option String
  attachment_type : Option String
  edate : Nat
deriving DecidableEq, Repr

/-- A row of the `users` table as used by src/unnamed/part_002 (keyed by
country_code and phone). -/
structure UserRow where
  country_code : String
  phone : String
  name : String
  password_plain : String
  password_expires : Nat
deriving DecidableEq, Repr

/-- A row of the `users` table as used by src/unnamed/part_004 (keyed by the
raw phone digits alone). -/
structure UserRowV4 where
  phone : String
  name : String
  password_plain : String
  password_expires : Nat
deriving DecidableEq, Repr

/-- The externally visible side effects of one handler invocation, in
program order: a socket broadcast (`io.emit("message", …)`), a SQL INSERT
into `user_whatsapp`, a WhatsApp reply (`msg.reply`), an INSERT into
`users`. -/
inductive Action
  | emit (row : WaRow)
  | insertMsg (row : WaRow)
  | reply (dest text : String)
  | insertUser (u : UserRow)
  | insertUserV4 (u : UserRowV4)
deriving DecidableEq, Repr

/-- State owned by one part_002 service process: the static
`processedMsgIds` set (as a duplicate-free list), the shared `user_whatsapp`
table and the shared `users` table. -/
structure SvcState where
  processed : List String
  store : List WaRow
  users : List UserRow
deriving DecidableEq, Repr

def initState : SvcState := { processed := [], store := [], users := [] }

/-- Lines 285-292 of src/unnamed/part_002: report whether the id was already
recorded; otherwise add it, then clear the whole set when its size exceeds
2000. -/
def dedupStep (processed : List String) (id : String) : Bool × List String :=
  if id ∈ processed then (true, processed)
  else
    let added := id :: processed
    (false, if added.length > 2000 then [] else added)

/-- Fold `dedupStep` over a list of incoming ids. -/
def dedupFold (s : List String) (ids : List String) : List String :=
  ids.foldl (fun acc i => (dedupStep acc i).2) s

/-- The durable INSERT into `user_whatsapp` under its migrated schema: the
unique index `user_whatsapp_msg_id_key` (src/README.md, CreateIndex
migration) makes an INSERT whose `msg_id` is already present raise a unique
violation and store nothing; the handlers do not catch that error, so the
only state effect of a duplicate INSERT is that no row is added. -/
def insertMsgRow (store : List WaRow) (row : WaRow) : List WaRow :=
  if store.any (fun r => r.msg_id == row.msg_id) then store else store ++ [row]

/-- Model of the external `mime-types` library's `extension` lookup on the
types exercised here; `none` stands for a lookup miss. -/
def mimeExtension (m : String) : Option String :=
  if m == "image/jpeg" then some "jpeg"
  else if m == "image/png" then some "png"
  else if m == "video/mp4" then some "mp4"
  else if m == "application/pdf" then some "pdf"
  else none

/-- The stored filename derived in the media block:
`incoming-${Date.now()}.${ext}` with fallback extension `bin`. -/
def attachmentFileName (now : Nat) (m : String) : String :=
  "incoming-" ++ toString now ++ "." ++ ((mimeExtension m).getD "bin")

/-- The `(attachment_name, attachment_path, attachment_type)` triple left in
the handler's local variables after the media try/catch (part_002 lines
302-318): on a download error nothing was assigned; on a write error
`attachment_name` was already assigned before `fs.writeFileSync` threw;
on success all three are set (`path.join("uploads", name)`). -/
def mediaFields (e : MsgEvent) : Option String × Option String × Option String :=
  if e.hasMedia then
    match e.media with
    | MediaOutcome.downloadError => (none, none, none)
    | MediaOutcome.writeError m => (some (attachmentFileName e.now m), none, none)
    | MediaOutcome.saved m =>
        (some (attachmentFileName e.now m),
         some ("uploads/" ++ attachmentFileName e.now m),
         some m)
  else (none, none, none)

/-- `isValidName` (part_002 lines 143-146): the regex `^[a-zA-Z\s]+$` must
match and the trimmed text must have length at least 2. -/
def isValidName (text : String) : Bool :=
  (decide (text.data ≠ []) && text.data.all (fun c => c.isAlpha || isJsSpace c)) &&
  decide (2 ≤ (jsTrim text).length)

/-- The reply text sent on successful registration. -/
def registerReply (name pass : String) : String :=
  "Hello " ++ name ++ ", your verification password is: *" ++ pass ++ "*"

/-- The USER REGISTRATION block of the part_002 `message` handler (lines
323-364): only for text events; only when the trimmed body starts with
`register ` case-insensitively; invalid names are logged without returning;
an existing (country_code, phone) row makes the block a no-op; otherwise a
user row is inserted and a reply sent. -/
def registrationStep (users : List UserRow) (e : MsgEvent) : List UserRow × List Action :=
  if !e.hasMedia && e.body != "" then
    let text := jsTrim e.body
    let phone := digitsOnly e.from_
    if jsStartsWith (jsToLower text) "register " then
      let name := jsTrim (jsSubstringFrom text 9)
      if !(isValidName name) then (users, [])
      else
        let cp := extractCountryCodeAndPhone phone
        let rows := users.filter (fun u => u.country_code == cp.1 && u.phone == cp.2)
        if rows.isEmpty then
          let u : UserRow := { country_code := cp.1, phone := cp.2, name := name,
                               password_plain := e.password,
                               password_expires := e.now + 600000 }
          (users ++ [u],
           [Action.insertUser u, Action.reply e.from_ (registerReply name e.password)])
        else (users, [])
    else (users, [])
  else (users, [])

/-- The `data` object built and both emitted and inserted by the part_002
`message` handler (lines 368-397). -/
def inRow (ourId : String) (e : MsgEvent) : WaRow :=
  let mf := mediaFields e
  { msg_id := e.id, in_out := "I", sender := some e.from_,
    receiver := some (if e.to_ == "" then ourId else e.to_),
    message := some e.body,
    attachment_name := mf.1, attachment_path := mf.2.1, attachment_type := mf.2.2,
    edate := e.now }

/-- The part_002 `client.on("message")` handler (lines 278-400): guard
against own messages, duplicate check with clear-on-threshold, media block,
registration block, then emit followed by INSERT. -/
def handleMessage (ourId : String) (s : SvcState) (e : MsgEvent) : SvcState × List Action :=
  if e.fromMe || e.from_ == ourId || e.author == ourId then (s, [])
  else
    let d := dedupStep s.processed e.id
    if d.1 then (s, [])
    else
      let ru := registrationStep s.users e
      let row := inRow ourId e
      ({ processed := d.2, store := insertMsgRow s.store row, users := ru.1 },
       ru.2 ++ [Action.emit row, Action.insertMsg row])

/-- The `data` object of the `message_create` handlers. -/
def outRow (e : MsgEvent) : WaRow :=
  { msg_id := e.id, in_out := "O", sender := some e.from_,
    receiver := some e.to_, message := some e.body,
    attachment_name := none, attachment_path := none, attachment_type := none,
    edate := e.now }

/-- The part_002 `client.on("message_create")` handler (lines 405-432):
record outgoing non-media messages, emit before INSERT. -/
def handleMessageCreate (ourId : String) (s : SvcState) (e : MsgEvent) : SvcState × List Action :=
  if !e.fromMe && e.from_ != ourId then (s, [])
  else if e.hasMedia then (s, [])
  else ({ s with store := insertMsgRow s.store (outRow e) },
        [Action.emit (outRow e), Action.insertMsg (outRow e)])

/-- The backend-variant `client.on("message")` handler
(src/backend/src/whatsapp.service.ts, lines 63-125): `isFromMe` guard, media
block, emit to frontend, then INSERT.  It keeps no dedup set and has no
registration block; its state is the `user_whatsapp` table alone. -/
def handleMessageB (ourId : String) (store : List WaRow) (e : MsgEvent) :
    List WaRow × List Action :=
  if e.fromMe || e.from_ == ourId || e.author == ourId then (store, [])
  else
    let row := inRow ourId e
    (insertMsgRow store row, [Action.emit row, Action.insertMsg row])

/-- The backend-variant `client.on("message_create")` handler
(src/backend/src/whatsapp.service.ts, lines 130-165): keep only outgoing
non-media messages, emit, then INSERT. -/
def handleMessageCreateB (ourId : String) (store : List WaRow) (e : MsgEvent) :
    List WaRow × List Action :=
  if !e.fromMe && e.from_ != ourId then (store, [])
  else if e.hasMedia then (store, [])
  else (insertMsgRow store (outRow e),
        [Action.emit (outRow e), Action.insertMsg (outRow e)])

/-- State of the part_004 variant process. -/
structure SvcStateV4 where
  processed : List String
  store : List WaRow
  users : List UserRowV4
deriving DecidableEq, Repr

def initStateV4 : SvcStateV4 := { processed := [], store := [], users := [] }

/-- The part_004 `client.on("message")` handler (lines 141-253): same guard,
dedup and media block as part_002, but the registration/login block treats
every text body as a name, returns early (skipping the message save) both
when the phone is already registered and when the name is invalid, and keys
`users` rows on the raw phone digits alone. -/
def handleMessageV4 (ourId : String) (s : SvcStateV4) (e : MsgEvent) :
    SvcStateV4 × List Action :=
  if e.fromMe || e.from_ == ourId || e.author == ourId then (s, [])
  else
    let d := dedupStep s.processed e.id
    if d.1 then (s, [])
    else
      let phone := digitsOnly e.from_
      let row := inRow ourId e
      if !e.hasMedia && e.body != "" then
        let body := jsTrim e.body
        let rows := s.users.filter (fun u => u.phone == phone)
        if !rows.isEmpty then
          ({ s with processed := d.2 }, [])
        else if !(isValidName body) then
          ({ s with processed := d.2 }, [])
        else
          let u : UserRowV4 := { phone := phone, name := body,
                                 password_plain := e.password,
                                 password_expires := e.now + 600000 }
          ({ processed := d.2, store := insertMsgRow s.store row,
             users := s.users ++ [u] },
           [Action.insertUserV4 u, Action.reply e.from_ (registerReply body e.password),
            Action.emit row, Action.insertMsg row])
      else
        ({ processed := d.2, store := insertMsgRow s.store row, users := s.users },
         [Action.emit row, Action.insertMsg row])

/-- Deliver a list of events to one part_002 instance, accumulating the
emitted actions in order. -/
def stepAcc (ourId : String) (p : SvcState × List Action) (e : MsgEvent) :
    SvcState × List Action :=
  let r := handleMessage ourId p.1 e
  (r.1, p.2 ++ r.2)

def runSeq (ourId : String) (s : SvcState) (es : List MsgEvent) :
    SvcState × List Action :=
  es.foldl (stepAcc ourId) (s, [])

/-- Number of stored rows carrying a given msg_id. -/
def countRowsId (id : String) (store : List WaRow) : Nat :=
  store.countP (fun r => r.msg_id == id)

def isEmitOf (id : String) : Action → Bool
  | Action.emit r => r.msg_id == id
  | _ => false

/-- Number of socket broadcasts of a message with the given msg_id. -/
def countEmitId (id : String) (tr : List Action) : Nat := tr.countP (isEmitOf id)

def isEmitA : Action → Bool
  | Action.emit _ => true
  | _ => false

def isInsertMsgA : Action → Bool
  | Action.insertMsg _ => true
  | _ => false

def isReplyA : Action → Bool
  | Action.reply _ _ => true
  | _ => false

def isInsertUserA : Action → Bool
  | Action.insertUser _ => true
  | _ => false

/-- Table constraints as declared by a migration. -/
inductive TableConstraint
  | primaryKey (cols : List String)
  | uniqueCols (cols : List String)
deriving DecidableEq, Repr

/-- The constraints of `user_whatsapp` after all migrations: the primary key
on `whatsID` from the CreateTable migration (src/unnamed/part_000) and the
unique index `user_whatsapp_msg_id_key` on `msg_id` from the CreateIndex
migration (src/README.md). -/
def user_whatsapp_constraints : List TableConstraint :=
  [TableConstraint.primaryKey ["whatsID"], TableConstraint.uniqueCols ["msg_id"]]

/-- Whether some declared constraint makes the given single column unique. -/
def enforcesUniqueOn (col : String) (cs : List TableConstraint) : Bool :=
  cs.any fun c =>
    match c with
    | TableConstraint.primaryKey cols => cols == [col]
    | TableConstraint.uniqueCols cols => cols == [col]

/-- Deliver the same event to two independent process instances (each with
its own in-memory dedup set and `users` view) sharing one durable
`user_whatsapp` store, instance A first. -/
def twoInstanceDeliver (ourId : String) (pA pB : List String)
    (store : List WaRow) (users : List UserRow) (e : MsgEvent) :
    List WaRow × List Action × List Action :=
  let a := handleMessage ourId { processed := pA, store := store, users := users } e
  let b := handleMessage ourId { processed := pB, store := a.1.store, users := a.1.users } e
  (b.1.store, a.2, b.2)

/-! Concrete inputs used to exercise the handlers. -/

/-- The local session's own serialized wid in the concrete scenarios. -/
def ourIdC : String := "999@c.us"

/-- A plain incoming text event from a foreign number. -/
def baseEvent : MsgEvent :=
  { id := "m0", fromMe := false, from_ := "911234567890@c.us", author := "",
    to_ := "", body := "hello", hasMedia := false,
    media := MediaOutcome.downloadError, now := 0, password := "AAAA" }

/-- The k-th filler id: a string of k copies of a fixed letter, so that
distinct indices give distinct ids. -/
def mkId (k : Nat) : String := ⟨List.replicate k 'b'⟩

/-- The first n filler ids. -/
def fillerIds (n : Nat) : List String := (List.range n).map (fun k => mkId (k + 1))

/-- A filler event: a fresh ordinary text message with the k-th filler id. -/
def fillerEvent (k : Nat) : MsgEvent := { baseEvent with id := mkId k }

/-- The first n filler events. -/
def fillerEvents (n : Nat) : List MsgEvent :=
  (List.range n).map (fun k => fillerEvent (k + 1))

def evC1 : MsgEvent := { baseEvent with id := "x1" }
def evC1w : MsgEvent := { baseEvent with id := "w1" }
def evC2x : MsgEvent := { baseEvent with id := "y1" }
def evC2w : MsgEvent := { baseEvent with id := "y2" }
def evC3x : MsgEvent := { baseEvent with id := "x3" }
def evC3w : MsgEvent := { baseEvent with id := "x4" }
def evC4w : MsgEvent := { baseEvent with id := "e1", fromMe := true }
def evC4wOut : MsgEvent :=
  { baseEvent with id := "o1", fromMe := true, from_ := "999@c.us", to_ := "911234567890@c.us" }
def evC5x : MsgEvent :=
  { baseEvent with id := "z1", hasMedia := true, media := MediaOutcome.writeError "image/png" }
def evC5w : MsgEvent :=
  { baseEvent with id := "z2", hasMedia := true, media := MediaOutcome.downloadError }
def evC6w : MsgEvent := { baseEvent with id := "g1", body := "Register Alice" }
def userC6 : UserRow :=
  { country_code := "91", phone := "1234567890", name := "Alice",
    password_plain := "BBBB", password_expires := 0 }
def evC7x : MsgEvent := { baseEvent with id := "r1", body := "Register A1" }
def evC7w : MsgEvent := { baseEvent with id := "r2", body := "Register A1" }

/-- A part_002 state in which evC6w's sender is already registered. -/
def stateC6 : SvcState := { processed := [], store := [], users := [userC6] }

/-! Basic lemmas about the handlers. -/

/-- A duplicate id makes the part_002 message handler a complete no-op. -/
theorem handleMessage_dup (ourId : String) (s : SvcState) (e : MsgEvent)
    (hd : e.id ∈ s.processed) :
    handleMessage ourId s e = (s, []) := by
  unfold handleMessage dedupStep
  split
  · rfl
  · simp [hd]

/-- Processing a guard-passing, not-yet-seen event: the dedup set gains the
id (or is cleared past the threshold), the row is appended to the store, and
the trace is the registration actions followed by emit then INSERT. -/
theorem handleMessage_fresh (ourId : String) (s : SvcState) (e : MsgEvent)
    (hg : (e.fromMe || e.from_ == ourId || e.author == ourId) = false)
    (hd : e.id ∉ s.processed) :
    handleMessage ourId s e =
      ({ processed := if s.processed.length + 1 > 2000 then [] else e.id :: s.processed,
         store := insertMsgRow s.store (inRow ourId e),
         users := (registrationStep s.users e).1 },
       (registrationStep s.users e).2 ++
         [Action.emit (inRow ourId e), Action.insertMsg (inRow ourId e)]) := by
  unfold handleMessage dedupStep
  simp [hg, hd]

/-- Events with media never enter the registration block. -/
theorem registrationStep_media (users : List UserRow) (e : MsgEvent)
    (hm : e.hasMedia = true) :
    registrationStep users e = (users, []) := by
  unfold registrationStep
  simp [hm]

/-- A body that does not start with the register keyword skips the
registration block. -/
theorem registrationStep_skip (users : List UserRow) (e : MsgEvent)
    (hr : jsStartsWith (jsToLower (jsTrim e.body)) "register " = false) :
    registrationStep users e = (users, []) := by
  unfold registrationStep
  split
  · simp [hr]
  · rfl

/-- An invalid name makes the registration block a no-op (without
suppressing the rest of the handler). -/
theorem registrationStep_invalidName (users : List UserRow) (e : MsgEvent)
    (hr : jsStartsWith (jsToLower (jsTrim e.body)) "register " = true)
    (hv : isValidName (jsTrim (jsSubstringFrom (jsTrim e.body) 9)) = false) :
    registrationStep users e = (users, []) := by
  unfold registrationStep
  split
  · simp [hr, hv]
  · rfl

/-- An already-registered (country_code, phone) key makes the registration
block a no-op. -/
theorem registrationStep_existing (users : List UserRow) (e : MsgEvent)
    (hr : jsStartsWith (jsToLower (jsTrim e.body)) "register " = true)
    (hv : isValidName (jsTrim (jsSubstringFrom (jsTrim e.body) 9)) = true)
    (hex : (users.filter (fun u =>
        u.country_code == (extractCountryCodeAndPhone (digitsOnly e.from_)).1 &&
        u.phone == (extractCountryCodeAndPhone (digitsOnly e.from_)).2)).isEmpty = false) :
    registrationStep users e = (users, []) := by
  unfold registrationStep
  split
  · simp [hr, hv, hex]
  · rfl

/-- The registration block only ever produces user-INSERT and reply actions,
never a broadcast and never a message-INSERT. -/
theorem registrationStep_no_emit (users : List UserRow) (e : MsgEvent) :
    ∀ a ∈ (registrationStep users e).2, isEmitA a = false ∧ isInsertMsgA a = false := by
  simp only [registrationStep]
  split
  · split
    · split
      · simp
      · split
        · intro a ha
          rcases List.mem_cons.1 ha with h | h
          · subst h; exact ⟨rfl, rfl⟩
          · rcases List.mem_cons.1 h with h2 | h2
            · subst h2; exact ⟨rfl, rfl⟩
            · simp at h2
        · simp
    · simp
  · simp

/-- A fresh msg_id (no stored row carries it) makes the INSERT succeed and
append the row. -/
theorem insertMsgRow_fresh (store : List WaRow) (row : WaRow)
    (h : countRowsId row.msg_id store = 0) :
    insertMsgRow store row = store ++ [row] := by
  unfold insertMsgRow
  rw [if_neg]
  intro hany
  rcases List.any_eq_true.1 hany with ⟨r, hr, hb⟩
  rw [countRowsId, List.countP_eq_zero] at h
  exact h r hr hb

/-- An already-present msg_id makes the INSERT hit the unique index and
store nothing. -/
theorem insertMsgRow_dup (store : List WaRow) (row : WaRow)
    (h : store.any (fun r => r.msg_id == row.msg_id) = true) :
    insertMsgRow store row = store := by
  unfold insertMsgRow
  rw [if_pos h]

/-- An INSERT never changes the number of rows carrying a different
msg_id. -/
theorem countRowsId_insertMsgRow_ne (store : List WaRow) (row : WaRow) (id : String)
    (h : (row.msg_id == id) = false) :
    countRowsId id (insertMsgRow store row) = countRowsId id store := by
  unfold insertMsgRow
  split
  · rfl
  · rw [countRowsId, countRowsId, List.countP_append]
    simp [h]

/-- The unique index keeps at-most-one-row-per-msg_id invariant across any
INSERT. -/
theorem countRowsId_le_one_insertMsgRow (store : List WaRow) (row : WaRow) (id : String)
    (h : countRowsId id store ≤ 1) :
    countRowsId id (insertMsgRow store row) ≤ 1 := by
  unfold insertMsgRow
  split
  · exact h
  · next hany =>
    rw [countRowsId, List.countP_append]
    rw [countRowsId] at h
    cases hb : (row.msg_id == id) with
    | false => simp [hb, h]
    | true =>
      have hid : row.msg_id = id := beq_iff_eq.1 hb
      have hz : List.countP (fun r => r.msg_id == id) store = 0 := by
        rw [List.countP_eq_zero]
        intro r hr hbr
        exact hany (List.any_eq_true.2 ⟨r, hr, by rw [hid]; exact hbr⟩)
      simp [hz, hb]

/-! The filler ids and the behaviour of the dedup set on them. -/

theorem mkId_inj {j k : Nat} (h : mkId j = mkId k) : j = k := by
  have h2 := congrArg (fun s => s.data.length) h
  simpa [mkId] using h2

theorem length_fillerIds (n : Nat) : (fillerIds n).length = n := by
  simp [fillerIds]

theorem fillerIds_succ (n : Nat) :
    fillerIds (n + 1) = fillerIds n ++ [mkId (n + 1)] := by
  simp [fillerIds, List.range_succ]

theorem mkId_not_mem_filler {m n : Nat} (h : n < m) : mkId m ∉ fillerIds n := by
  intro hmem
  rcases List.mem_map.1 hmem with ⟨k, hk, he⟩
  have hk2 := List.mem_range.1 hk
  have hk3 := mkId_inj he
  omega

theorem fillerIds_nodup (n : Nat) : (fillerIds n).Nodup := by
  refine List.Nodup.map ?_ (List.nodup_range n)
  intro a b hab
  have := mkId_inj hab
  omega

/-- Feeding n ≤ 2000 pairwise-distinct fresh ids into the empty dedup set
never triggers the clear: the set ends up holding exactly those ids. -/
theorem dedupFold_filler : ∀ n, n ≤ 2000 →
    dedupFold [] (fillerIds n) = (fillerIds n).reverse := by
  intro n
  induction n with
  | zero => intro _; rfl
  | succ m ih =>
    intro h
    have hm : m ≤ 2000 := Nat.le_of_succ_le h
    rw [fillerIds_succ, dedupFold, List.foldl_append]
    have ihm := ih hm
    rw [dedupFold] at ihm
    rw [ihm]
    simp only [List.foldl_cons, List.foldl_nil]
    have hmem : mkId (m + 1) ∉ (fillerIds m).reverse := by
      rw [List.mem_reverse]
      exact mkId_not_mem_filler (Nat.lt_succ_self m)
    have hlen : (mkId (m + 1) :: (fillerIds m).reverse).length = m + 1 := by
      simp [length_fillerIds]
    rw [dedupStep]
    rw [if_neg hmem]
    simp only [hlen]
    rw [if_neg (by omega : ¬ m + 1 > 2000)]
    simp

theorem mkId_ne_x1 (k : Nat) : mkId k ≠ "x1" := by
  intro h
  have h2 := congrArg String.data h
  simp only [mkId] at h2
  cases k with
  | zero => simp at h2
  | succ m =>
    rw [List.replicate_succ] at h2
    have : 'b' = 'x' := by
      have := List.head_eq_of_cons_eq h2
      exact this
    exact absurd this (by decide)

theorem runSeq_append (ourId : String) (s : SvcState) (es1 es2 : List MsgEvent) :
    runSeq ourId s (es1 ++ es2) = es2.foldl (stepAcc ourId) (runSeq ourId s es1) := by
  unfold runSeq
  exact List.foldl_append _ _ _ _

theorem stepAcc_fresh (ourId : String) (p : SvcState × List Action) (e : MsgEvent)
    (hg : (e.fromMe || e.from_ == ourId || e.author == ourId) = false)
    (hd : e.id ∉ p.1.processed) :
    stepAcc ourId p e =
      ({ processed := if p.1.processed.length + 1 > 2000 then [] else e.id :: p.1.processed,
         store := insertMsgRow p.1.store (inRow ourId e),
         users := (registrationStep p.1.users e).1 },
       p.2 ++ ((registrationStep p.1.users e).2 ++
         [Action.emit (inRow ourId e), Action.insertMsg (inRow ourId e)])) := by
  unfold stepAcc
  rw [handleMessage_fresh ourId p.1 e hg hd]

theorem fillerEvent_guard (k : Nat) :
    ((fillerEvent k).fromMe || (fillerEvent k).from_ == ourIdC ||
      (fillerEvent k).author == ourIdC) = false := by
  show (false || "911234567890@c.us" == ourIdC || "" == ourIdC) = false
  decide

theorem fillerEvent_noRegister (k : Nat) :
    jsStartsWith (jsToLower (jsTrim (fillerEvent k).body)) "register " = false := by
  show jsStartsWith (jsToLower (jsTrim "hello")) "register " = false
  decide

/-- Processing the first n ≤ 2000 filler events from a fresh part_002
instance: the dedup set holds exactly the filler ids, the users table stays
empty, and nothing touching msg_id "x1" is stored or broadcast. -/
theorem run_filler : ∀ n, n ≤ 2000 →
    (runSeq ourIdC initState (fillerEvents n)).1.processed = (fillerIds n).reverse ∧
    (runSeq ourIdC initState (fillerEvents n)).1.users = [] ∧
    countRowsId "x1" (runSeq ourIdC initState (fillerEvents n)).1.store = 0 ∧
    countEmitId "x1" (runSeq ourIdC initState (fillerEvents n)).2 = 0 := by
  intro n
  induction n with
  | zero => intro _; exact ⟨rfl, rfl, rfl, rfl⟩
  | succ m ih =>
    intro h
    have hm : m ≤ 2000 := Nat.le_of_succ_le h
    obtain ⟨ihp, ihu, ihs, iht⟩ := ih hm
    have hev : fillerEvents (m + 1) = fillerEvents m ++ [fillerEvent (m + 1)] := by
      simp [fillerEvents, List.range_succ]
    rw [hev, runSeq_append]
    have hd : (fillerEvent (m + 1)).id ∉
        (runSeq ourIdC initState (fillerEvents m)).1.processed := by
      rw [ihp]
      show mkId (m + 1) ∉ (fillerIds m).reverse
      rw [List.mem_reverse]
      exact mkId_not_mem_filler (Nat.lt_succ_self m)
    rw [List.foldl_cons, List.foldl_nil,
        stepAcc_fresh ourIdC _ (fillerEvent (m + 1)) (fillerEvent_guard (m + 1)) hd]
    have hrs : registrationStep (runSeq ourIdC initState (fillerEvents m)).1.users
        (fillerEvent (m + 1)) = ((runSeq ourIdC initState (fillerEvents m)).1.users, []) :=
      registrationStep_skip _ _ (fillerEvent_noRegister (m + 1))
    have hlen : (runSeq ourIdC initState (fillerEvents m)).1.processed.length = m := by
      rw [ihp]
      simp [length_fillerIds]
    have hid : (fillerEvent (m + 1)).id = mkId (m + 1) := rfl
    have hne : ((inRow ourIdC (fillerEvent (m + 1))).msg_id == "x1") = false := by
      have h3 : (inRow ourIdC (fillerEvent (m + 1))).msg_id = mkId (m + 1) := rfl
      rw [h3]
      exact beq_eq_false_iff_ne.2 (mkId_ne_x1 (m + 1))
    refine ⟨?_, ?_, ?_, ?_⟩
    · show (if _ + 1 > 2000 then _ else _) = _
      rw [hlen, if_neg (by omega : ¬ m + 1 > 2000), ihp, fillerIds_succ]
      simp [hid]
    · show (registrationStep _ _).1 = []
      rw [hrs, ihu]
    · show countRowsId "x1"
        (insertMsgRow (runSeq ourIdC initState (fillerEvents m)).1.store
          (inRow ourIdC (fillerEvent (m + 1)))) = 0
      rw [countRowsId_insertMsgRow_ne _ _ _ hne]
      exact ihs
    · show countEmitId "x1" (_ ++ ((registrationStep _ _).2 ++ _)) = 0
      rw [hrs]
      simp only [List.nil_append]
      rw [countEmitId, List.countP_append]
      rw [countEmitId] at iht
      rw [iht]
      simp [isEmitOf, hne]

theorem stepAcc_dup (ourId : String) (p : SvcState × List Action) (e : MsgEvent)
    (hd : e.id ∈ p.1.processed) : stepAcc ourId p e = p := by
  unfold stepAcc
  rw [handleMessage_dup _ _ _ hd]
  simp

theorem run_dup (ourId : String) (e : MsgEvent) :
    ∀ m (p : SvcState × List Action), e.id ∈ p.1.processed →
      List.foldl (stepAcc ourId) p (List.replicate m e) = p := by
  intro m
  induction m with
  | zero => intro p _; rfl
  | succ k ih =>
    intro p hp
    rw [List.replicate_succ, List.foldl_cons, stepAcc_dup ourId p e hp]
    exact ih p hp

theorem isEmitOf_false_of_isEmitA (id : String) (a : Action)
    (h : isEmitA a = false) : isEmitOf id a = false := by
  cases a with
  | emit r => exact absurd h (by simp [isEmitA])
  | insertMsg r => rfl
  | reply d t => rfl
  | insertUser u => rfl
  | insertUserV4 u => rfl

theorem countEmit_registrationStep (id : String) (users : List UserRow) (e : MsgEvent) :
    countEmitId id (registrationStep users e).2 = 0 := by
  rw [countEmitId, List.countP_eq_zero]
  intro a ha
  have h := (registrationStep_no_emit users e a ha).1
  simp [isEmitOf_false_of_isEmitA id a h]

/-! Claim theorems. -/

/-- Helper for the C1 counterexample: two deliveries of evC1 to an instance
whose dedup set is full (2000 entries, none of them "x1") and whose store
has no "x1" row: the row is stored once (the second INSERT hits the unique
index) but broadcast twice. -/
theorem c1x_steps (p : SvcState × List Action)
    (hd1 : evC1.id ∉ p.1.processed)
    (hlen : p.1.processed.length = 2000)
    (hs : countRowsId "x1" p.1.store = 0)
    (ht : countEmitId "x1" p.2 = 0) :
    countRowsId "x1" (List.foldl (stepAcc ourIdC) p [evC1, evC1]).1.store = 1 ∧
    countEmitId "x1" (List.foldl (stepAcc ourIdC) p [evC1, evC1]).2 = 2 := by
  have hg : (evC1.fromMe || evC1.from_ == ourIdC || evC1.author == ourIdC) = false := by
    decide
  have hskip : ∀ us : List UserRow, registrationStep us evC1 = (us, []) := fun us =>
    registrationStep_skip us evC1 (by decide)
  have h1 : stepAcc ourIdC p evC1 =
      ({ processed := [], store := p.1.store ++ [inRow ourIdC evC1], users := p.1.users },
       p.2 ++ [Action.emit (inRow ourIdC evC1), Action.insertMsg (inRow ourIdC evC1)]) := by
    rw [stepAcc_fresh ourIdC p evC1 hg hd1, hlen, hskip,
        insertMsgRow_fresh p.1.store (inRow ourIdC evC1) hs]
    norm_num
  have hdup : (p.1.store ++ [inRow ourIdC evC1]).any
      (fun r => r.msg_id == (inRow ourIdC evC1).msg_id) = true :=
    List.any_eq_true.2 ⟨inRow ourIdC evC1, by simp, by simp⟩
  have h2 : stepAcc ourIdC (stepAcc ourIdC p evC1) evC1 =
      ({ processed := [evC1.id],
         store := p.1.store ++ [inRow ourIdC evC1],
         users := p.1.users },
       (p.2 ++ [Action.emit (inRow ourIdC evC1), Action.insertMsg (inRow ourIdC evC1)]) ++
         [Action.emit (inRow ourIdC evC1), Action.insertMsg (inRow ourIdC evC1)]) := by
    rw [h1, stepAcc_fresh ourIdC _ evC1 hg (by simp)]
    dsimp only
    rw [hskip, insertMsgRow_dup _ _ hdup]
    norm_num
  rw [List.foldl_cons, List.foldl_cons, List.foldl_nil, h2]
  dsimp only
  have hbeq : ((inRow ourIdC evC1).msg_id == "x1") = true := by decide
  constructor
  · rw [countRowsId, List.countP_append]
    rw [countRowsId] at hs
    rw [hs]
    simp [hbeq]
  · rw [countEmitId, List.countP_append, List.countP_append]
    rw [countEmitId] at ht
    rw [ht]
    simp [isEmitOf, hbeq]

/-- C1 (counterexample): delivering the same message id "x1" twice to one
part_002 instance that has already processed 2000 other events yields TWO
broadcasts for that id (though only one stored row): the 2001st dedup
insertion clears the whole set, so the redelivery is treated as novel and
re-broadcast; only the unique index on msg_id stops the second INSERT, and
it does so after the second broadcast already went out. -/
theorem c1_duplicate_after_clear :
    countRowsId "x1" (runSeq ourIdC initState (fillerEvents 2000 ++ [evC1, evC1])).1.store = 1 ∧
    countEmitId "x1" (runSeq ourIdC initState (fillerEvents 2000 ++ [evC1, evC1])).2 = 2 := by
  obtain ⟨hp, hu, hs, ht⟩ := run_filler 2000 (by omega)
  rw [runSeq_append]
  refine c1x_steps _ ?_ ?_ hs ht
  · rw [hp, List.mem_reverse]
    intro hmem
    rcases List.mem_map.1 hmem with ⟨k, _, he⟩
    exact mkId_ne_x1 (k + 1) he
  · rw [hp]
    simp [length_fillerIds]

/-- C1 (amended): N ≥ 1 consecutive deliveries of one event to a part_002
instance whose dedup set does not yet hold the id and holds at most 1999
entries (so the clear threshold is not crossed), and whose store has no row
with the id, produce exactly one stored row and one broadcast for that id. -/
theorem c1_exactly_once_below_threshold (ourId : String) (s : SvcState) (e : MsgEvent)
    (n : Nat) (hn : 1 ≤ n)
    (hg : (e.fromMe || e.from_ == ourId || e.author == ourId) = false)
    (hd : e.id ∉ s.processed)
    (hlen : s.processed.length ≤ 1999)
    (hs0 : countRowsId e.id s.store = 0) :
    countRowsId e.id (runSeq ourId s (List.replicate n e)).1.store = 1 ∧
    countEmitId e.id (runSeq ourId s (List.replicate n e)).2 = 1 := by
  obtain ⟨m, rfl⟩ : ∃ m, n = m + 1 := ⟨n - 1, by omega⟩
  rw [List.replicate_succ]
  unfold runSeq
  rw [List.foldl_cons]
  have h1 : stepAcc ourId (s, ([] : List Action)) e =
      ({ processed := e.id :: s.processed, store := s.store ++ [inRow ourId e],
         users := (registrationStep s.users e).1 },
       (registrationStep s.users e).2 ++
         [Action.emit (inRow ourId e), Action.insertMsg (inRow ourId e)]) := by
    rw [stepAcc_fresh ourId (s, ([] : List Action)) e hg hd]
    dsimp only
    rw [if_neg (by omega : ¬ s.processed.length + 1 > 2000),
        insertMsgRow_fresh s.store (inRow ourId e) hs0]
    simp
  rw [h1]
  rw [run_dup ourId e m _ (List.mem_cons_self _ _)]
  dsimp only
  constructor
  · rw [countRowsId, List.countP_append]
    rw [countRowsId] at hs0
    rw [hs0]
    simp [inRow]
  · rw [countEmitId, List.countP_append]
    have hreg := countEmit_registrationStep e.id s.users e
    rw [countEmitId] at hreg
    rw [hreg]
    simp [isEmitOf, inRow]

/-- C1 (witness for the amended theorem). -/
theorem c1_exactly_once_below_threshold_witness :
    countRowsId "w1" (runSeq ourIdC initState (List.replicate 2 evC1w)).1.store = 1 ∧
    countEmitId "w1" (runSeq ourIdC initState (List.replicate 2 evC1w)).2 = 1 :=
  c1_exactly_once_below_threshold ourIdC initState evC1w 2 (by omega) (by decide)
    (by decide) (by decide) (by decide)

/-- Helper: a prefix recovered by `take` re-appended to the corresponding
`drop` gives back the original character list, at the String level. -/
theorem take_drop_mk (l p : List Char) (n : Nat) (h : l.take n = p) :
    (⟨p⟩ : String) ++ (⟨l.drop n⟩ : String) = (⟨l⟩ : String) := by
  have h2 : (⟨p ++ l.drop n⟩ : String) = (⟨l⟩ : String) := by
    apply congrArg String.mk
    rw [← h]
    exact List.take_append_drop n l
  exact h2

/-- C2 (counterexample): on a fresh ordinary incoming message the part_002
handler's action trace has the socket broadcast at index 0 and the
`user_whatsapp` INSERT at index 1 — the broadcast happens strictly BEFORE
the insert, not after a successful insert as claimed. -/
theorem c2_counterexample_broadcast_first :
    (handleMessage ourIdC initState evC2x).2.findIdx? isEmitA = some 0 ∧
    (handleMessage ourIdC initState evC2x).2.findIdx? isInsertMsgA = some 1 ∧
    (handleMessage ourIdC initState evC2x).1.store = [inRow ourIdC evC2x] := by
  refine ⟨by decide, by decide, by decide⟩

/-- C2 (amended): for every event that passes the guard and the dedup check,
the part_002 handler emits the broadcast first and then issues the INSERT:
the trace ends with [emit, insert] in that order with only registration side
effects before them.  The INSERT itself obeys the unique index: a fresh
msg_id appends the row, while a duplicate msg_id stores nothing — but the
broadcast, already emitted, is not suppressed by the violation. -/
theorem c2_broadcast_precedes_insert (ourId : String) (s : SvcState) (e : MsgEvent)
    (hg : (e.fromMe || e.from_ == ourId || e.author == ourId) = false)
    (hd : e.id ∉ s.processed) :
    ∃ pre, (handleMessage ourId s e).2 =
        pre ++ [Action.emit (inRow ourId e), Action.insertMsg (inRow ourId e)] ∧
      (∀ a ∈ pre, isEmitA a = false ∧ isInsertMsgA a = false) ∧
      (handleMessage ourId s e).1.store = insertMsgRow s.store (inRow ourId e) ∧
      (countRowsId e.id s.store = 0 →
        (handleMessage ourId s e).1.store = s.store ++ [inRow ourId e]) ∧
      (s.store.any (fun r => r.msg_id == e.id) = true →
        (handleMessage ourId s e).1.store = s.store) := by
  rw [handleMessage_fresh ourId s e hg hd]
  refine ⟨(registrationStep s.users e).2, rfl, registrationStep_no_emit s.users e,
    rfl, ?_, ?_⟩
  · intro h0
    exact insertMsgRow_fresh s.store (inRow ourId e) h0
  · intro hdup
    exact insertMsgRow_dup s.store (inRow ourId e) hdup

/-- C2 (witness). -/
theorem c2_broadcast_precedes_insert_witness :
    ∃ pre, (handleMessage ourIdC initState evC2w).2 =
        pre ++ [Action.emit (inRow ourIdC evC2w), Action.insertMsg (inRow ourIdC evC2w)] ∧
      (∀ a ∈ pre, isEmitA a = false ∧ isInsertMsgA a = false) ∧
      (handleMessage ourIdC initState evC2w).1.store =
        insertMsgRow initState.store (inRow ourIdC evC2w) ∧
      (countRowsId evC2w.id initState.store = 0 →
        (handleMessage ourIdC initState evC2w).1.store =
          initState.store ++ [inRow ourIdC evC2w]) ∧
      (initState.store.any (fun r => r.msg_id == evC2w.id) = true →
        (handleMessage ourIdC initState evC2w).1.store = initState.store) :=
  c2_broadcast_precedes_insert ourIdC initState evC2w (by decide) (by decide)

/-- C3: msg_id is unique across all stored rows.  The migrated schema
declares a unique index on msg_id; the modelled INSERT preserves
at-most-one-row-per-msg_id against any insert; and delivering the same event
to two independent instances (each with its own dedup set) leaves exactly
one row with that id — the second instance's INSERT hits the unique index
and stores nothing. -/
theorem c3_msg_id_unique_across_instances :
    (enforcesUniqueOn "msg_id" user_whatsapp_constraints = true) ∧
    (∀ (store : List WaRow) (row : WaRow) (id : String),
        countRowsId id store ≤ 1 →
        countRowsId id (insertMsgRow store row) ≤ 1) ∧
    (∀ (ourId : String) (pA pB : List String) (store : List WaRow)
        (users : List UserRow) (e : MsgEvent),
        (e.fromMe || e.from_ == ourId || e.author == ourId) = false →
        e.id ∉ pA → e.id ∉ pB →
        countRowsId e.id store = 0 →
        countRowsId e.id (twoInstanceDeliver ourId pA pB store users e).1 = 1) := by
  refine ⟨by decide, countRowsId_le_one_insertMsgRow, ?_⟩
  intro ourId pA pB store users e hg hdA hdB hs0
  simp only [twoInstanceDeliver]
  rw [handleMessage_fresh ourId ⟨pA, store, users⟩ e hg hdA]
  dsimp only
  rw [insertMsgRow_fresh store (inRow ourId e) hs0]
  rw [handleMessage_fresh ourId
    ⟨pB, store ++ [inRow ourId e], (registrationStep users e).1⟩ e hg hdB]
  dsimp only
  rw [insertMsgRow_dup _ _ (List.any_eq_true.2 ⟨inRow ourId e, by simp, by simp⟩)]
  rw [countRowsId, List.countP_append]
  rw [countRowsId] at hs0
  rw [hs0]
  simp [inRow]

/-- C3 (witness). -/
theorem c3_msg_id_unique_across_instances_witness :
    countRowsId "x3" (twoInstanceDeliver ourIdC [] [] [] [] evC3x).1 = 1 :=
  c3_msg_id_unique_across_instances.2.2 ourIdC [] [] [] [] evC3x
    (by decide) (by decide) (by decide) (by decide)

/-- C4: every delivered event flagged as ours (fromMe, or sender/author equal
to the session's own id) is discarded by both inbound handlers without any
store or broadcast side effect, and outgoing non-media messages are recorded
by the `message_create` handler (with the row appended whenever its msg_id
is new to the store). -/
theorem c4_own_messages_discarded :
    (∀ (ourId : String) (store : List WaRow) (e : MsgEvent),
        (e.fromMe || e.from_ == ourId || e.author == ourId) = true →
        handleMessageB ourId store e = (store, [])) ∧
    (∀ (ourId : String) (s : SvcState) (e : MsgEvent),
        (e.fromMe || e.from_ == ourId || e.author == ourId) = true →
        handleMessage ourId s e = (s, [])) ∧
    (∀ (ourId : String) (store : List WaRow) (e : MsgEvent),
        (e.fromMe || e.from_ == ourId) = true → e.hasMedia = false →
        handleMessageCreateB ourId store e =
          (insertMsgRow store (outRow e),
           [Action.emit (outRow e), Action.insertMsg (outRow e)])) ∧
    (∀ (ourId : String) (store : List WaRow) (e : MsgEvent),
        (e.fromMe || e.from_ == ourId) = true → e.hasMedia = false →
        countRowsId e.id store = 0 →
        (handleMessageCreateB ourId store e).1 = store ++ [outRow e]) := by
  have hcreate : ∀ (ourId : String) (store : List WaRow) (e : MsgEvent),
      (e.fromMe || e.from_ == ourId) = true → e.hasMedia = false →
      handleMessageCreateB ourId store e =
        (insertMsgRow store (outRow e),
         [Action.emit (outRow e), Action.insertMsg (outRow e)]) := by
    intro ourId store e hg hm
    have hcond : (!e.fromMe && e.from_ != ourId) = false := by
      cases hf : e.fromMe
      · rw [hf] at hg
        simp only [Bool.false_or] at hg
        simp [hg, bne]
      · simp [hf]
    unfold handleMessageCreateB
    simp [hcond, hm]
  refine ⟨?_, ?_, hcreate, ?_⟩
  · intro ourId store e hg
    unfold handleMessageB
    simp [hg]
  · intro ourId s e hg
    unfold handleMessage
    simp [hg]
  · intro ourId store e hg hm h0
    rw [hcreate ourId store e hg hm]
    exact insertMsgRow_fresh store (outRow e) h0

/-- C4 (witness). -/
theorem c4_own_messages_discarded_witness :
    handleMessageB ourIdC [] evC4w = ([], []) ∧
    handleMessage ourIdC initState evC4w = (initState, []) ∧
    handleMessageCreateB ourIdC [] evC4wOut =
      (insertMsgRow [] (outRow evC4wOut),
       [Action.emit (outRow evC4wOut), Action.insertMsg (outRow evC4wOut)]) ∧
    (handleMessageCreateB ourIdC [] evC4wOut).1 = [] ++ [outRow evC4wOut] :=
  ⟨c4_own_messages_discarded.1 ourIdC [] evC4w (by decide),
   c4_own_messages_discarded.2.1 ourIdC initState evC4w (by decide),
   c4_own_messages_discarded.2.2.1 ourIdC [] evC4wOut (by decide) (by decide),
   c4_own_messages_discarded.2.2.2 ourIdC [] evC4wOut (by decide) (by decide) (by decide)⟩

/-- C5 (counterexample): when the media download succeeds but the file write
fails, the recorded and broadcast row carries a NON-null attachment_name
(assigned before `fs.writeFileSync` threw), with attachment_path and
attachment_type null — not all three null as claimed. -/
theorem c5_counterexample_write_error_keeps_name :
    (handleMessage ourIdC initState evC5x).1.store = [inRow ourIdC evC5x] ∧
    (inRow ourIdC evC5x).attachment_name = some "incoming-0.png" ∧
    (inRow ourIdC evC5x).attachment_path = none ∧
    (inRow ourIdC evC5x).attachment_type = none ∧
    countEmitId "z1" (handleMessage ourIdC initState evC5x).2 = 1 := by
  refine ⟨by decide, by decide, by decide, by decide, by decide⟩

/-- C5 (amended): a media-ingestion failure never drops the message — the
INSERT is still issued and the row stored whenever its msg_id is new, and it
is broadcast; on a download failure all three attachment fields are null,
while on a write failure attachment_name is already set (non-null) and only
path and type are null. -/
theorem c5_media_failure_never_drops (ourId : String) (s : SvcState) (e : MsgEvent)
    (hg : (e.fromMe || e.from_ == ourId || e.author == ourId) = false)
    (hd : e.id ∉ s.processed)
    (hm : e.hasMedia = true) :
    (handleMessage ourId s e).1.store = insertMsgRow s.store (inRow ourId e) ∧
    (countRowsId e.id s.store = 0 →
      (handleMessage ourId s e).1.store = s.store ++ [inRow ourId e]) ∧
    (handleMessage ourId s e).2 =
      [Action.emit (inRow ourId e), Action.insertMsg (inRow ourId e)] ∧
    (e.media = MediaOutcome.downloadError →
      (inRow ourId e).attachment_name = none ∧
      (inRow ourId e).attachment_path = none ∧
      (inRow ourId e).attachment_type = none) ∧
    (∀ m, e.media = MediaOutcome.writeError m →
      (inRow ourId e).attachment_name = some (attachmentFileName e.now m) ∧
      (inRow ourId e).attachment_path = none ∧
      (inRow ourId e).attachment_type = none) := by
  rw [handleMessage_fresh ourId s e hg hd, registrationStep_media s.users e hm]
  refine ⟨rfl, ?_, rfl, ?_, ?_⟩
  · intro h0
    exact insertMsgRow_fresh s.store (inRow ourId e) h0
  · intro hdl
    refine ⟨?_, ?_, ?_⟩ <;> simp [inRow, mediaFields, hm, hdl]
  · intro m hw
    refine ⟨?_, ?_, ?_⟩ <;> simp [inRow, mediaFields, hm, hw]

/-- C5 (witness, download-failure case). -/
theorem c5_media_failure_never_drops_witness :
    (handleMessage ourIdC initState evC5w).1.store =
      insertMsgRow initState.store (inRow ourIdC evC5w) ∧
    (countRowsId evC5w.id initState.store = 0 →
      (handleMessage ourIdC initState evC5w).1.store =
        initState.store ++ [inRow ourIdC evC5w]) ∧
    (handleMessage ourIdC initState evC5w).2 =
      [Action.emit (inRow ourIdC evC5w), Action.insertMsg (inRow ourIdC evC5w)] ∧
    (evC5w.media = MediaOutcome.downloadError →
      (inRow ourIdC evC5w).attachment_name = none ∧
      (inRow ourIdC evC5w).attachment_path = none ∧
      (inRow ourIdC evC5w).attachment_type = none) ∧
    (∀ m, evC5w.media = MediaOutcome.writeError m →
      (inRow ourIdC evC5w).attachment_name = some (attachmentFileName evC5w.now m) ∧
      (inRow ourIdC evC5w).attachment_path = none ∧
      (inRow ourIdC evC5w).attachment_type = none) :=
  c5_media_failure_never_drops ourIdC initState evC5w (by decide) (by decide) (by decide)

/-- C6: a valid register command from a phone whose (country_code, phone)
key already has a `users` row changes nothing in `users`, issues no reply
and no user INSERT (no second credential), while the message itself is still
stored as usual (appended whenever its msg_id is new). -/
theorem c6_registration_idempotent (ourId : String) (s : SvcState) (e : MsgEvent)
    (hg : (e.fromMe || e.from_ == ourId || e.author == ourId) = false)
    (hd : e.id ∉ s.processed)
    (hreg : jsStartsWith (jsToLower (jsTrim e.body)) "register " = true)
    (hname : isValidName (jsTrim (jsSubstringFrom (jsTrim e.body) 9)) = true)
    (hex : (s.users.filter (fun u =>
        u.country_code == (extractCountryCodeAndPhone (digitsOnly e.from_)).1 &&
        u.phone == (extractCountryCodeAndPhone (digitsOnly e.from_)).2)).isEmpty = false) :
    (handleMessage ourId s e).1.users = s.users ∧
    (∀ a ∈ (handleMessage ourId s e).2, isReplyA a = false ∧ isInsertUserA a = false) ∧
    (handleMessage ourId s e).1.store = insertMsgRow s.store (inRow ourId e) ∧
    (countRowsId e.id s.store = 0 →
      (handleMessage ourId s e).1.store = s.store ++ [inRow ourId e]) := by
  rw [handleMessage_fresh ourId s e hg hd,
      registrationStep_existing s.users e hreg hname hex]
  refine ⟨rfl, ?_, rfl, ?_⟩
  · intro a ha
    rcases List.mem_cons.1 ha with h | h
    · subst h; exact ⟨rfl, rfl⟩
    · rcases List.mem_cons.1 h with h2 | h2
      · subst h2; exact ⟨rfl, rfl⟩
      · simp at h2
  · intro h0
    exact insertMsgRow_fresh s.store (inRow ourId e) h0

/-- C6 (witness). -/
theorem c6_registration_idempotent_witness :
    (handleMessage ourIdC stateC6 evC6w).1.users = stateC6.users ∧
    (∀ a ∈ (handleMessage ourIdC stateC6 evC6w).2, isReplyA a = false ∧ isInsertUserA a = false) ∧
    (handleMessage ourIdC stateC6 evC6w).1.store =
      insertMsgRow stateC6.store (inRow ourIdC evC6w) ∧
    (countRowsId evC6w.id stateC6.store = 0 →
      (handleMessage ourIdC stateC6 evC6w).1.store =
        stateC6.store ++ [inRow ourIdC evC6w]) :=
  c6_registration_idempotent ourIdC stateC6 evC6w (by decide) (by decide)
    (by decide) (by decide) (by decide)

/-- C7 (counterexample): in the part_004 variant, the registration/login
branch returns early on an invalid name ("Register A1" from an unknown
phone): no record and no reply, but — contrary to the claim — the message is
NOT recorded either (empty store, empty trace). -/
theorem c7_counterexample_v4_drops_message :
    (handleMessageV4 ourIdC initStateV4 evC7x).1.store = [] ∧
    (handleMessageV4 ourIdC initStateV4 evC7x).1.users = [] ∧
    (handleMessageV4 ourIdC initStateV4 evC7x).2 = [] := by
  refine ⟨by decide, by decide, by decide⟩

/-- C7 (amended): in the part_002 handler an invalid registration name
yields no user row and no reply, and the original message is still broadcast
and its INSERT issued (the row stored whenever its msg_id is new); in the
part_004 variant the same input is silently dropped entirely (see the
counterexample). -/
theorem c7_invalid_name_silent_in_part002 (ourId : String) (s : SvcState) (e : MsgEvent)
    (hg : (e.fromMe || e.from_ == ourId || e.author == ourId) = false)
    (hd : e.id ∉ s.processed)
    (hreg : jsStartsWith (jsToLower (jsTrim e.body)) "register " = true)
    (hname : isValidName (jsTrim (jsSubstringFrom (jsTrim e.body) 9)) = false) :
    (handleMessage ourId s e).1.users = s.users ∧
    (∀ a ∈ (handleMessage ourId s e).2, isReplyA a = false ∧ isInsertUserA a = false) ∧
    (handleMessage ourId s e).1.store = insertMsgRow s.store (inRow ourId e) ∧
    (countRowsId e.id s.store = 0 →
      (handleMessage ourId s e).1.store = s.store ++ [inRow ourId e]) := by
  rw [handleMessage_fresh ourId s e hg hd,
      registrationStep_invalidName s.users e hreg hname]
  refine ⟨rfl, ?_, rfl, ?_⟩
  · intro a ha
    rcases List.mem_cons.1 ha with h | h
    · subst h; exact ⟨rfl, rfl⟩
    · rcases List.mem_cons.1 h with h2 | h2
      · subst h2; exact ⟨rfl, rfl⟩
      · simp at h2
  · intro h0
    exact insertMsgRow_fresh s.store (inRow ourId e) h0

/-- C7 (witness for the part_002 statement). -/
theorem c7_invalid_name_silent_in_part002_witness :
    (handleMessage ourIdC initState evC7w).1.users = initState.users ∧
    (∀ a ∈ (handleMessage ourIdC initState evC7w).2, isReplyA a = false ∧ isInsertUserA a = false) ∧
    (handleMessage ourIdC initState evC7w).1.store =
      insertMsgRow initState.store (inRow ourIdC evC7w) ∧
    (countRowsId evC7w.id initState.store = 0 →
      (handleMessage ourIdC initState evC7w).1.store =
        initState.store ++ [inRow ourIdC evC7w]) :=
  c7_invalid_name_silent_in_part002 ourIdC initState evC7w (by decide) (by decide)
    (by decide) (by decide)

/-- C8 (counterexample): the exactly-10-digit input "9876543210" falls into
the final branch of extractCountryCodeAndPhone and keeps an EMPTY country
prefix — the default "91" is not prepended there. -/
theorem c8_counterexample_ten_digits :
    extractCountryCodeAndPhone "9876543210" = ("", "9876543210") ∧
    (extractCountryCodeAndPhone "9876543210").1 ≠ "91" := by
  refine ⟨by decide, by decide⟩

/-- C8 (amended): extractCountryCodeAndPhone splits "+14155550123" and
"919876543210" as claimed but maps "9876543210" to prefix "" and subscriber
"9876543210"; the default prefix "91" for exactly-10-digit inputs is
prepended only in the send path (`sendMessage`), which yields
"919876543210". -/
theorem c8_normalizer_vectors :
    extractCountryCodeAndPhone "+14155550123" = ("1", "4155550123") ∧
    extractCountryCodeAndPhone "919876543210" = ("91", "9876543210") ∧
    extractCountryCodeAndPhone "9876543210" = ("", "9876543210") ∧
    sendMessagePhone "9876543210" = "919876543210" ∧
    sendMessageJid "9876543210" = "919876543210@c.us" := by
  refine ⟨by decide, by decide, by decide, by decide, by decide⟩

/-- C9: the dedup set's size never exceeds 2000 entries after a `seen` step;
inserting the 2001st distinct id (after 2000 distinct pairwise-different
ids) clears the whole set, and the very first id, redelivered right after
the clear, is reported as novel again. -/
theorem c9_dedup_bound_and_clear :
    (∀ (processed : List String) (id : String), processed.length ≤ 2000 →
      ((dedupStep processed id).2).length ≤ 2000) ∧
    (fillerIds 2001).Nodup ∧
    dedupFold [] (fillerIds 2000) = (fillerIds 2000).reverse ∧
    dedupStep ((fillerIds 2000).reverse) (mkId 2001) = (false, []) ∧
    dedupFold [] (fillerIds 2001) = [] ∧
    (fillerIds 2001).head? = some (mkId 1) ∧
    dedupStep [] (mkId 1) = (false, [mkId 1]) := by
  have hstep : dedupStep ((fillerIds 2000).reverse) (mkId 2001) = (false, []) := by
    have hmem : mkId 2001 ∉ (fillerIds 2000).reverse := by
      rw [List.mem_reverse]
      exact mkId_not_mem_filler (by omega)
    have hlen : (mkId 2001 :: (fillerIds 2000).reverse).length = 2001 := by
      simp [length_fillerIds]
    unfold dedupStep
    rw [if_neg hmem]
    dsimp only
    rw [hlen, if_pos (by omega : 2001 > 2000)]
  refine ⟨?_, fillerIds_nodup 2001, dedupFold_filler 2000 (by omega), hstep, ?_, ?_, ?_⟩
  · intro p id h
    unfold dedupStep
    split
    · exact h
    · dsimp only
      split
      · simp
      · next hh => omega
  · rw [fillerIds_succ, dedupFold, List.foldl_append]
    have h2 := dedupFold_filler 2000 (by omega)
    rw [dedupFold] at h2
    rw [h2]
    rw [List.foldl_cons, List.foldl_nil]
    show (dedupStep ((fillerIds 2000).reverse) (mkId 2001)).2 = []
    rw [hstep]
  · rw [fillerIds, List.range_succ_eq_map]
    rfl
  · unfold dedupStep
    rw [if_neg (List.not_mem_nil _)]
    dsimp only
    rw [if_neg (by simp : ¬ ([mkId 1] : List String).length > 2000)]

/-- C9 (witness for the size-bound conjunct). -/
theorem c9_dedup_bound_witness :
    ((dedupStep ["a"] "b").2).length ≤ 2000 :=
  c9_dedup_bound_and_clear.1 ["a"] "b" (by decide)

/-- C10: in every branch of extractCountryCodeAndPhone the returned country
code concatenated with the returned phone number is exactly the input with
all non-digit characters removed. -/
theorem c10_digits_preserved (s : String) :
    (extractCountryCodeAndPhone s).1 ++ (extractCountryCodeAndPhone s).2 = digitsOnly s := by
  simp only [extractCountryCodeAndPhone]
  generalize digitsOnly s = ds
  obtain ⟨l⟩ := ds
  split
  · next h =>
    rw [Bool.and_eq_true] at h
    have h1 := of_decide_eq_true h.1
    rw [show ("91".data.length) = 2 from by decide] at h1
    exact take_drop_mk l "91".data 2 h1
  · split
    · next h =>
      rw [Bool.and_eq_true] at h
      have h1 := of_decide_eq_true h.1
      rw [show ("1".data.length) = 1 from by decide] at h1
      exact take_drop_mk l "1".data 1 h1
    · split
      · next h =>
        rw [Bool.and_eq_true] at h
        have h1 := of_decide_eq_true h.1
        rw [show ("44".data.length) = 2 from by decide] at h1
        exact take_drop_mk l "44".data 2 h1
      · split
        · next h =>
          rw [Bool.and_eq_true] at h
          have h1 := of_decide_eq_true h.1
          rw [show ("86".data.length) = 2 from by decide] at h1
          exact take_drop_mk l "86".data 2 h1
        · split
          · show (⟨(l.take (l.length - 10)).drop 0⟩ : String) ++ (⟨l.drop (l.length - 10)⟩ : String) = (⟨l⟩ : String)
            rw [List.drop_zero]
            exact take_drop_mk l (l.take (l.length - 10)) (l.length - 10) rfl
          · show ("" : String) ++ (⟨l⟩ : String) = (⟨l⟩ : String)
            rfl

end WaMessenger
